import Mathlib

/-!
Shallow embedding of `src/golf_bot.py` (the I_suck_at_golf Telegram bot):
the Shot data model, the per-user session `core` dictionary, the undo
stack (`push_state` / `pop_state`), the wizard state machine
(`shot_flow` and its helpers), the commands, and the stats aggregator
(`compute_stats_by_club` with `pct`).

Modelling conventions:
* Python `None` becomes `Option.none`; dataclass string fields that may
  hold `None` become `Option String`.
* Python truthiness tests (`if s.lie:`, `if not b:`) are embedded
  explicitly: an `Option String` is truthy iff it is `some v` with
  `v ≠ ""`; a number is truthy iff it is nonzero.
* The telegram transport is out of scope; a bot reply is modelled as a
  `Msg` value (reply text plus which keyboard the source attaches).
* `uuid.uuid4()` and `now_iso()` are nondeterministic inputs; the
  embedded functions take the fresh identifier / timestamp as an
  explicit argument.
* Python floats in `pct` are embedded as exact rationals, with
  `round(x, 1)` embedded as round-half-to-even at one decimal place.
-/

namespace GolfBot

/-- Control-token constants from the source (`BACK`, `CANCEL`, `CONFIRM`). -/
def BACK : String := "⬅ Back"
def CANCEL : String := "✖ Cancel"
def CONFIRM : String := "✅ Confirm"
def MAIN_MENU : String := "🏠 Main menu"
def END_SESSION_BTN : String := "🛑 End session"

def BOT_NAME : String := "I_suck_at_golf"

/-- `LIES` list from the source. -/
def LIES : List String :=
  ["tee", "fairway", "rough", "deep rough", "fringe", "green", "sand", "mat", "bare lie", "divot"]

/-- `CLUBS` list from the source. -/
def CLUBS : List String :=
  ["Dr", "3w", "5w", "7w", "3h", "3", "4", "5", "6", "7", "8", "9",
   "GW", "PW", "SW", "LW", "54", "56", "58", "60", "Putter"]

/-- `SHOT_TYPES` list from the source. -/
def SHOT_TYPES : List String :=
  ["full swing", "3/4", "half swing",
   "pitch shot", "bunker shot", "chip shot",
   "bump and run", "flop shot", "putt"]

def RESULT_NON_PUTT : List String := ["⬆️", "⬇️", "➡️", "⬅️", "⛳️"]
def CONTACT_NON_PUTT : List String :=
  ["thin", "fat", "toe", "heel", "shank", "high on face", "low on face", "good ⛳️"]
def PLAN_CHOICES : List String := ["shot as planned ⛳️", "not as planned ❌"]

def PUTT_DISTANCE : List String := ["Long putt", "Short putt"]
def RESULT_PUTT : List String := ["⬆️", "⬇️", "➡️", "⬅️", "⛳️"]
def CONTACT_PUTT : List String := ["toe", "heel", "good ⛳️"]
def LAG_PUTT : List String := ["good reading", "poor reading"]

/-- The `Shot` dataclass. -/
structure Shot where
  timestamp : String
  mode : Option String          -- "practice" | "oncourse" (copied from core["mode"])
  session_id : String
  hole : Option Nat := none
  lie : Option String := none
  club : Option String := none
  shot_type : Option String := none
  -- non-putt branch
  result : Option String := none
  contact : Option String := none
  plan : Option String := none
  -- putt branch
  putt_distance : Option String := none
  putt_result : Option String := none
  putt_contact : Option String := none
  putt_plan_1 : Option String := none
  lag_reading : Option String := none
  putt_plan_2 : Option String := none
deriving Repr, DecidableEq

/-- The per-user session dictionary `core` built by `ensure_session`.
`practice_lie`/`practice_club` embed `core["practice"]`, `hole` embeds
`core["round"]["hole"]`. -/
structure Core where
  session_id : String
  mode : Option String          -- "practice" / "oncourse" / not chosen
  shots : List Shot             -- confirmed shots
  current : Option Shot         -- the in-progress Shot
  stack : List Shot             -- undo snapshots, head = most recent
  practice_lie : Option String
  practice_club : Option String
  hole : Nat
deriving Repr, DecidableEq

/-- `ensure_session` defaults for a fresh user (session id supplied by uuid4). -/
def initCore (sid : String) : Core :=
  { session_id := sid, mode := none, shots := [], current := none,
    stack := [], practice_lie := none, practice_club := none, hole := 1 }

/-- Python truthiness of an optional string (`None` and `""` are falsy). -/
def strTruthy : Option String → Bool
  | some v => v != ""
  | none => false

/-- `club_name`: `c or "—"` (empty string is falsy, so it also maps to the dash). -/
def club_name (c : Option String) : String :=
  match c with
  | some v => if v = "" then "—" else v
  | none => "—"

/-- The fresh `Shot` built by `start_new_shot` (before being stored in
`core["current"]`). -/
def new_shot (ts : String) (core : Core) : Shot :=
  let s0 : Shot := { timestamp := ts, mode := core.mode, session_id := core.session_id }
  let s1 := if core.mode = some "oncourse" then { s0 with hole := some core.hole } else s0
  if core.mode = some "practice" then
    { s1 with lie := core.practice_lie, club := core.practice_club }
  else s1

/-- `start_new_shot`: install a fresh Shot as current and clear the undo stack. -/
def start_new_shot (ts : String) (core : Core) : Core :=
  { core with current := some (new_shot ts core), stack := [] }

/-- `push_state`: snapshot the current Shot onto the undo stack.
(The source calls it only with a current Shot present; `asdict` of a
dataclass is a full field copy, which is exactly a Lean value copy.) -/
def push_state (core : Core) : Core :=
  match core.current with
  | some s => { core with stack := s :: core.stack }
  | none => core

/-- `pop_state`: restore the most recent snapshot; the Bool is the
source's return value (`True` iff something was popped). -/
def pop_state (core : Core) : Core × Bool :=
  match core.stack with
  | prev :: rest => ({ core with current := some prev, stack := rest }, true)
  | [] => (core, false)

/-- Replace the current Shot (embeds the in-place mutation of the Python
object aliased by both `s` and `core["current"]`). -/
def set_current (core : Core) (s : Shot) : Core :=
  { core with current := some s }

/-- Which keyboard (reply markup) the source attaches to a reply:
the `kb_*` constructors, `ReplyKeyboardRemove`, or no markup at all. -/
inductive Kb where
  | mode
  | lie
  | club
  | type
  | result (p : Bool)           -- kb_result(is_putt)
  | contact (p : Bool)          -- kb_contact(is_putt)
  | plan
  | puttDistance
  | lag
  | confirm
  | removeKeyboard
  | noKb
deriving Repr, DecidableEq

/-- One bot reply: the text passed to `reply_text` and its keyboard. -/
structure Msg where
  text : String
  keyboard : Kb
deriving Repr, DecidableEq

/-- `str()` of an optional field the way a Python f-string renders it. -/
def optShow (o : Option String) : String :=
  match o with
  | some v => v
  | none => "None"

/-- `summarize`: the Review text (each field line is emitted only when
the field is truthy, mirroring the source's `if s.x:` checks). -/
def summarize (s : Shot) : String :=
  let base := ["Mode: " ++ optShow s.mode]
  let base := base ++ (match s.hole with
    | some h => if h ≠ 0 then ["Hole: " ++ toString h] else []
    | none => [])
  let base := base ++ (if strTruthy s.lie then ["Lie: " ++ optShow s.lie] else [])
  let base := base ++ (if strTruthy s.club then ["Club: " ++ optShow s.club] else [])
  let base := base ++ (if strTruthy s.shot_type then ["Type: " ++ optShow s.shot_type] else [])
  let tail :=
    if s.shot_type = some "putt" then
      (if strTruthy s.putt_distance then ["Distance: " ++ optShow s.putt_distance] else [])
      ++ (if strTruthy s.putt_result then ["Result: " ++ optShow s.putt_result] else [])
      ++ (if strTruthy s.putt_contact then ["Contact: " ++ optShow s.putt_contact] else [])
      ++ (if strTruthy s.putt_plan_1 then ["Plan #1: " ++ optShow s.putt_plan_1] else [])
      ++ (if strTruthy s.lag_reading then ["Lag: " ++ optShow s.lag_reading] else [])
      ++ (if strTruthy s.putt_plan_2 then ["Plan #2: " ++ optShow s.putt_plan_2] else [])
    else
      (if strTruthy s.result then ["Result: " ++ optShow s.result] else [])
      ++ (if strTruthy s.contact then ["Contact: " ++ optShow s.contact] else [])
      ++ (if strTruthy s.plan then ["Plan: " ++ optShow s.plan] else [])
  String.intercalate "\n" (base ++ tail)

/-- `go_main_menu`: reset everything (keeping the session id) and return
to mode selection. -/
def go_main_menu (core : Core) : Core × Msg :=
  ({ core with mode := none, shots := [], current := none, stack := [],
               practice_lie := none, practice_club := none, hole := 1 },
   Msg.mk ("Hi! This is " ++ BOT_NAME ++ ".\nChoose mode:") Kb.mode)

/-- `end_session_action`: regenerate the session id (`fresh` stands for
the new `uuid4()`), clear shots / current / stack, and do the
mode-specific extra reset. -/
def end_session_action (fresh : String) (core : Core) : Core × Msg :=
  let core2 := { core with session_id := fresh, shots := [], current := none, stack := [] }
  if core.mode = some "practice" then
    ({ core2 with practice_lie := none, practice_club := none },
     Msg.mk "Session ended. Practice setup: pick Lie." Kb.lie)
  else if core.mode = some "oncourse" then
    ({ core2 with hole := 1 },
     Msg.mk "Session ended. On-course: Hole = 1. Use /shot." Kb.removeKeyboard)
  else
    (core2, Msg.mk "Session ended. Use /start to choose mode." Kb.mode)

/-- `handle_controls`: the two globally available buttons; `some` iff handled. -/
def handle_controls (fresh : String) (core : Core) (text : String) :
    Option (Core × Msg) :=
  if text = MAIN_MENU then some (go_main_menu core)
  else if text = END_SESSION_BTN then some (end_session_action fresh core)
  else none

/-- `reask_step`: re-prompt for the first unfilled step of the Shot. -/
def reask_step (s : Shot) : Msg :=
  if s.shot_type = none then Msg.mk "Choose Type:" Kb.type
  else if s.shot_type ≠ some "putt" then
    if s.lie = none then Msg.mk "Lie?" Kb.lie
    else if s.club = none then Msg.mk "Club?" Kb.club
    else if s.result = none then Msg.mk "Result?" (Kb.result false)
    else if s.contact = none then Msg.mk "Contact?" (Kb.contact false)
    else if s.plan = none then Msg.mk "Plan?" Kb.plan
    else Msg.mk ("Review:\n" ++ summarize s) Kb.confirm
  else
    if s.putt_distance = none then Msg.mk "Distance?" Kb.puttDistance
    else if s.lie = none then Msg.mk "Lie?" Kb.lie
    else if s.club = none then Msg.mk "Club?" Kb.club
    else if s.putt_result = none then Msg.mk "Result?" (Kb.result true)
    else if s.putt_contact = none then Msg.mk "Contact?" (Kb.contact true)
    else if s.putt_plan_1 = none then Msg.mk "Plan?" Kb.plan
    else if s.lag_reading = none then Msg.mk "Lag putt reading?" Kb.lag
    else if s.putt_plan_2 = none then Msg.mk "Plan (after lag)?" Kb.plan
    else Msg.mk ("Review:\n" ++ summarize s) Kb.confirm

/-- The progression part of `shot_flow` (everything after the control /
back / cancel / confirm checks): validate `text` against the current
step's choice set, push a snapshot and set the field on a match,
re-prompt otherwise.  A Shot whose branch is complete falls through the
cascade and the Python function returns `None` (no reply): embedded as
`(core, none)`. -/
def progress (core : Core) (s : Shot) (text : String) : Core × Option Msg :=
  -- Type
  if s.shot_type = none then
    if text ∈ SHOT_TYPES then
      let core1 := set_current (push_state core) { s with shot_type := some text }
      if text = "putt" then (core1, some (Msg.mk "Distance?" Kb.puttDistance))
      else if s.lie = none then (core1, some (Msg.mk "Lie?" Kb.lie))
      else if s.club = none then (core1, some (Msg.mk "Club?" Kb.club))
      else (core1, some (Msg.mk "Result?" (Kb.result false)))
    else (core, some (Msg.mk "Choose Type:" Kb.type))
  -- Non-putt branch
  else if s.shot_type ≠ some "putt" then
    if s.lie = none then
      if text ∈ LIES then
        (set_current (push_state core) { s with lie := some text },
         some (Msg.mk "Club?" Kb.club))
      else (core, some (Msg.mk "Lie?" Kb.lie))
    else if s.club = none then
      if text ∈ CLUBS then
        (set_current (push_state core) { s with club := some text },
         some (Msg.mk "Result?" (Kb.result false)))
      else (core, some (Msg.mk "Club?" Kb.club))
    else if s.result = none then
      if text ∈ RESULT_NON_PUTT then
        (set_current (push_state core) { s with result := some text },
         some (Msg.mk "Contact?" (Kb.contact false)))
      else (core, some (Msg.mk "Result?" (Kb.result false)))
    else if s.contact = none then
      if text ∈ CONTACT_NON_PUTT then
        (set_current (push_state core) { s with contact := some text },
         some (Msg.mk "Plan?" Kb.plan))
      else (core, some (Msg.mk "Contact?" (Kb.contact false)))
    else if s.plan = none then
      if text ∈ PLAN_CHOICES then
        let s1 := { s with plan := some text }
        (set_current (push_state core) s1,
         some (Msg.mk ("Review:\n" ++ summarize s1) Kb.confirm))
      else (core, some (Msg.mk "Plan?" Kb.plan))
    else (core, none)
  -- Putt branch
  else
    if s.putt_distance = none then
      if text ∈ PUTT_DISTANCE then
        let core1 := set_current (push_state core) { s with putt_distance := some text }
        if s.lie = none then (core1, some (Msg.mk "Lie?" Kb.lie))
        else if s.club = none then (core1, some (Msg.mk "Club?" Kb.club))
        else (core1, some (Msg.mk "Result?" (Kb.result true)))
      else (core, some (Msg.mk "Distance?" Kb.puttDistance))
    else if s.lie = none then
      if text ∈ LIES then
        (set_current (push_state core) { s with lie := some text },
         some (Msg.mk "Club?" Kb.club))
      else (core, some (Msg.mk "Lie?" Kb.lie))
    else if s.club = none then
      if text ∈ CLUBS then
        (set_current (push_state core) { s with club := some text },
         some (Msg.mk "Result?" (Kb.result true)))
      else (core, some (Msg.mk "Club?" Kb.club))
    else if s.putt_result = none then
      if text ∈ RESULT_PUTT then
        (set_current (push_state core) { s with putt_result := some text },
         some (Msg.mk "Contact?" (Kb.contact true)))
      else (core, some (Msg.mk "Result?" (Kb.result true)))
    else if s.putt_contact = none then
      if text ∈ CONTACT_PUTT then
        (set_current (push_state core) { s with putt_contact := some text },
         some (Msg.mk "Plan?" Kb.plan))
      else (core, some (Msg.mk "Contact?" (Kb.contact true)))
    else if s.putt_plan_1 = none then
      if text ∈ PLAN_CHOICES then
        (set_current (push_state core) { s with putt_plan_1 := some text },
         some (Msg.mk "Lag putt reading?" Kb.lag))
      else (core, some (Msg.mk "Plan?" Kb.plan))
    else if s.lag_reading = none then
      if text ∈ LAG_PUTT then
        (set_current (push_state core) { s with lag_reading := some text },
         some (Msg.mk "Plan (after lag)?" Kb.plan))
      else (core, some (Msg.mk "Lag putt reading?" Kb.lag))
    else if s.putt_plan_2 = none then
      if text ∈ PLAN_CHOICES then
        let s1 := { s with putt_plan_2 := some text }
        (set_current (push_state core) s1,
         some (Msg.mk ("Review:\n" ++ summarize s1) Kb.confirm))
      else (core, some (Msg.mk "Plan (after lag)?" Kb.plan))
    else (core, none)

/-- The body of `shot_flow` once a current Shot `s` exists
(`core.current = some s` at every call site): global controls, back,
cancel, confirm, then the progression. -/
def shot_flow_body (fresh ts : String) (core : Core) (s : Shot) (text : String) :
    Core × Option Msg :=
  match handle_controls fresh core text with
  | some r => (r.fst, some r.snd)
  | none =>
    if text = BACK then
      let pr := pop_state core
      if pr.snd then
        (pr.fst, some (reask_step (pr.fst.current.getD s)))
      else
        (pr.fst, some (Msg.mk "Nothing to go back to." Kb.noKb))
    else if text = CANCEL then
      let core2 := { core with current := none, stack := [] }
      if core.mode = some "practice" then
        (core2, some (Msg.mk "Shot canceled.\nNew shot: choose Type" Kb.type))
      else
        (core2, some (Msg.mk "Shot canceled. Start new with /shot" Kb.removeKeyboard))
    else if text = CONFIRM then
      -- `core["shots"].append(core["current"])` with NO completeness check
      let core2 := { core with shots := core.shots ++ [s], current := none, stack := [] }
      if core.mode = some "practice" then
        (start_new_shot ts core2, some (Msg.mk "Saved ✅\nNew shot: choose Type" Kb.type))
      else
        (core2, some (Msg.mk "Saved ✅\nAdd next: /shot" Kb.removeKeyboard))
    else progress core s text

/-- `shot_flow`: the wizard entry point for a text token. -/
def shot_flow (fresh ts : String) (core : Core) (text : String) :
    Core × Option Msg :=
  match core.current with
  | some s => shot_flow_body fresh ts core s text
  | none =>
    if core.mode = some "practice" then
      if strTruthy core.practice_lie && strTruthy core.practice_club then
        shot_flow_body fresh ts (start_new_shot ts core) (new_shot ts core) text
      else (core, none)          -- still choosing sticky lie/club
    else if core.mode = some "oncourse" then
      (core, some (Msg.mk "Start a shot with /shot" Kb.noKb))
    else
      (core, some (Msg.mk "Use /start to choose mode." Kb.noKb))

/-- `handle_mode`: mode selection when no mode is chosen yet. -/
def handle_mode (fresh : String) (core : Core) (text : String) :
    Core × Option Msg :=
  if text ≠ "practice" ∧ text ≠ "on course" then
    (core, some (Msg.mk "Choose mode:" Kb.mode))
  else
    let m := if text ≠ "on course" then text else "oncourse"
    let core2 := { core with mode := some m, session_id := fresh,
                             shots := [], current := none, stack := [] }
    if m = "practice" then
      ({ core2 with practice_lie := none, practice_club := none },
       some (Msg.mk "Practice selected.\nPick Lie:" Kb.lie))
    else
      ({ core2 with hole := 1 },
       some (Msg.mk "On-course selected.\nHole = 1.\nStart a shot with /shot\nUse /next_hole to advance hole."
          Kb.removeKeyboard))

/-- `handle_practice_setup`: choose the sticky lie and club. -/
def handle_practice_setup (fresh ts : String) (core : Core) (text : String) :
    Core × Option Msg :=
  if core.mode ≠ some "practice" then (core, none)
  else
    match handle_controls fresh core text with
    | some r => (r.fst, some r.snd)
    | none =>
      if core.practice_lie = none then
        if text = BACK then (core, some (Msg.mk "Choose mode:" Kb.mode))
        else if text ∈ LIES then
          ({ core with practice_lie := some text },
           some (Msg.mk ("Lie: " ++ text ++ "\nNow pick Club:") Kb.club))
        else (core, some (Msg.mk "Pick Lie:" Kb.lie))
      else if core.practice_club = none then
        if text = BACK then
          ({ core with practice_lie := none }, some (Msg.mk "Pick Lie:" Kb.lie))
        else if text ∈ CLUBS then
          let core2 := { core with practice_club := some text }
          (start_new_shot ts core2,
           some (Msg.mk ("Sticky set ⛳️\nLie: " ++ optShow core2.practice_lie
              ++ " | Club: " ++ optShow core2.practice_club
              ++ "\nStart a shot: choose Type") Kb.type))
        else (core, some (Msg.mk "Pick Club:" Kb.club))
      else shot_flow fresh ts core text

/-- `cmd_shot`: start an on-course shot.  Note: when already on-course it
calls `start_new_shot` unconditionally, replacing any in-progress Shot. -/
def cmd_shot (ts : String) (core : Core) : Core × Msg :=
  if core.mode ≠ some "oncourse" then
    (core, Msg.mk "You are not in on-course mode. Use /start." Kb.noKb)
  else
    let core2 := start_new_shot ts core
    (core2, Msg.mk ("Hole " ++ toString core2.hole ++ ": choose Type") Kb.type)

/-- `cmd_next_hole`. -/
def cmd_next_hole (core : Core) : Core × Msg :=
  if core.mode ≠ some "oncourse" then
    (core, Msg.mk "You are not in on-course mode." Kb.noKb)
  else
    let core2 := { core with hole := core.hole + 1 }
    (core2, Msg.mk ("Moved to hole " ++ toString core2.hole ++ ". Add a shot: /shot") Kb.noKb)

/-- `any_text`: the text-message router. -/
def any_text (fresh ts : String) (core : Core) (text : String) :
    Core × Option Msg :=
  match handle_controls fresh core text with
  | some r => (r.fst, some r.snd)
  | none =>
    if core.mode = none then handle_mode fresh core text
    else if core.mode = some "practice" then
      if core.practice_lie = none ∨ core.practice_club = none then
        handle_practice_setup fresh ts core text
      else shot_flow fresh ts core text
    else if core.mode = some "oncourse" then
      shot_flow fresh ts core text
    else (core, some (Msg.mk "Use /start to choose mode." Kb.noKb))

/-! ### Stats aggregator (`pct`, `compute_stats_by_club`) -/

/-- Round a rational to the nearest integer, ties to even: the embedding
of Python 3 `round` (banker's rounding), with the float arithmetic of
`a * 100.0 / b` embedded as exact rational arithmetic. -/
def roundHalfEven (q : ℚ) : ℤ :=
  let f := ⌊q⌋
  let r := q - (f : ℚ)
  if r < 1/2 then f
  else if 1/2 < r then f + 1
  else if f % 2 = 0 then f else f + 1

/-- `pct(a, b) = 0.0 if not b else round(a * 100.0 / b, 1)`;
`round(x, 1)` is `roundHalfEven (x * 10) / 10`. -/
def pct (a b : ℕ) : ℚ :=
  if b = 0 then 0 else (roundHalfEven ((a : ℚ) * 100 * 10 / (b : ℚ)) : ℚ) / 10

/-- A CSV cell of the stats table: club label, sample size, or percentage. -/
inductive Cell where
  | str (v : String)
  | nat (n : ℕ)
  | q (x : ℚ)
deriving Repr, DecidableEq

/-- First-occurrence deduplication: `list(dict.fromkeys(...))` /
iteration order of a Python dict built by insertion. -/
def dedupKeepFirst (l : List String) : List String :=
  l.foldl (fun acc x => if x ∈ acc then acc else acc ++ [x]) []

def result_keys : List String := dedupKeepFirst (RESULT_NON_PUTT ++ RESULT_PUTT)
def contact_keys : List String := dedupKeepFirst (CONTACT_NON_PUTT ++ CONTACT_PUTT)
def plan_keys : List String := PLAN_CHOICES
def lag_keys : List String := LAG_PUTT

/-- The result-direction observations one Shot contributes (`res` list). -/
def resObsOfShot (s : Shot) : List String :=
  if s.shot_type = some "putt" then
    if strTruthy s.putt_result then [optShow s.putt_result] else []
  else
    if strTruthy s.result then [optShow s.result] else []

/-- The contact-quality observations one Shot contributes (`con` list). -/
def conObsOfShot (s : Shot) : List String :=
  if s.shot_type = some "putt" then
    if strTruthy s.putt_contact then [optShow s.putt_contact] else []
  else
    if strTruthy s.contact then [optShow s.contact] else []

/-- The plan-adherence observations one Shot contributes (`plan` list):
a putt contributes up to two, a non-putt at most one. -/
def planObsOfShot (s : Shot) : List String :=
  if s.shot_type = some "putt" then
    (if strTruthy s.putt_plan_1 then [optShow s.putt_plan_1] else [])
    ++ (if strTruthy s.putt_plan_2 then [optShow s.putt_plan_2] else [])
  else
    if strTruthy s.plan then [optShow s.plan] else []

/-- The lag-quality observations one Shot contributes (`lag` list). -/
def lagObsOfShot (s : Shot) : List String :=
  if s.shot_type = some "putt" then
    if strTruthy s.lag_reading then [optShow s.lag_reading] else []
  else []

/-- The clubs of a shot list in first-encounter order — the iteration
order of the `defaultdict` in `compute_stats_by_club`. -/
def clubOrder (shots : List Shot) : List String :=
  dedupKeepFirst (shots.map (fun s => club_name s.club))

/-- The group of shots filed under one club label. -/
def clubGroup (shots : List Shot) (c : String) : List Shot :=
  shots.filter (fun s => club_name s.club = c)

/-- One data row of the stats table (the loop body of
`compute_stats_by_club`); `Counter(xs).get(k, 0)` is `xs.count k`. -/
def rowFor (shots : List Shot) (c : String) : List Cell :=
  let lst := clubGroup shots c
  let N := lst.length
  let res := lst.flatMap resObsOfShot
  let con := lst.flatMap conObsOfShot
  let plan := lst.flatMap planObsOfShot
  let lag := lst.flatMap lagObsOfShot
  [Cell.str c, Cell.nat N]
    ++ result_keys.map (fun k => Cell.q (pct (res.count k) N))
    ++ contact_keys.map (fun k => Cell.q (pct (con.count k) N))
    ++ plan_keys.map (fun k => Cell.q (pct (plan.count k) N))
    ++ lag_keys.map (fun k => Cell.q (pct (lag.count k) N))

/-- The header row of the stats table. -/
def headerRow : List Cell :=
  [Cell.str "Club", Cell.str "n"]
    ++ result_keys.map (fun k => Cell.str ("Result % " ++ k))
    ++ contact_keys.map (fun k => Cell.str ("Contact % " ++ k))
    ++ plan_keys.map (fun k => Cell.str ("Plan % " ++ k))
    ++ lag_keys.map (fun k => Cell.str ("Lag % " ++ k))

/-- `compute_stats_by_club`: header, then one row per club in
first-encounter order. -/
def compute_stats_by_club (shots : List Shot) : List (List Cell) :=
  headerRow :: (clubOrder shots).map (rowFor shots)

/-- The state-relevant part of `cmd_stats`: "no shots yet" when the
session's list is empty (no export), else the stats table computed from
`core["shots"]` alone. -/
def cmd_stats_rows (core : Core) : Option (List (List Cell)) :=
  if core.shots = [] then none else some (compute_stats_by_club core.shots)

/-! ### Session-level events and reachability -/

/-- One input event of a user's session: a plain text message (routed
through `any_text`) or one of the bot commands. `/start`, `/help` and
`/stats` only reply and never mutate the session. -/
inductive Ev where
  | msg (text : String)
  | shot
  | next_hole
  | end_session
  | start
  | stats
  | help
deriving Repr, DecidableEq

/-- The session-state transition of one event (`fresh` is the `uuid4()`
drawn if the event regenerates the session id, `ts` the `now_iso()`
timestamp if it creates a Shot). -/
def step (fresh ts : String) (core : Core) (ev : Ev) : Core :=
  match ev with
  | Ev.msg text => (any_text fresh ts core text).fst
  | Ev.shot => (cmd_shot ts core).fst
  | Ev.next_hole => (cmd_next_hole core).fst
  | Ev.end_session => (end_session_action fresh core).fst
  | Ev.start => core
  | Ev.stats => core
  | Ev.help => core

/-- The session states reachable from a fresh `ensure_session` state by
any sequence of events. -/
inductive Reachable : Core → Prop
  | init (sid : String) : Reachable (initCore sid)
  | next (fresh ts : String) (ev : Ev) {c : Core} :
      Reachable c → Reachable (step fresh ts c ev)

/-! ### Spec-side notions: Review completeness, current step, branch groups -/

/-- The Review condition from the spec: every field required by the
Shot's branch (putt vs. non-putt) is set.  This is exactly the condition
under which the progression cascade of `shot_flow` falls through to the
Review prompt. -/
def branchComplete (s : Shot) : Bool :=
  if s.shot_type = none then false
  else if s.shot_type ≠ some "putt" then
    s.lie.isSome && s.club.isSome && s.result.isSome && s.contact.isSome && s.plan.isSome
  else
    s.putt_distance.isSome && s.lie.isSome && s.club.isSome && s.putt_result.isSome &&
    s.putt_contact.isSome && s.putt_plan_1.isSome && s.lag_reading.isSome && s.putt_plan_2.isSome

/-- The Choice Catalog set of the step the in-progress Shot is currently
parked at (empty once the branch is complete, i.e. at Review). -/
def stepChoices (s : Shot) : List String :=
  if s.shot_type = none then SHOT_TYPES
  else if s.shot_type ≠ some "putt" then
    if s.lie = none then LIES
    else if s.club = none then CLUBS
    else if s.result = none then RESULT_NON_PUTT
    else if s.contact = none then CONTACT_NON_PUTT
    else if s.plan = none then PLAN_CHOICES
    else []
  else
    if s.putt_distance = none then PUTT_DISTANCE
    else if s.lie = none then LIES
    else if s.club = none then CLUBS
    else if s.putt_result = none then RESULT_PUTT
    else if s.putt_contact = none then CONTACT_PUTT
    else if s.putt_plan_1 = none then PLAN_CHOICES
    else if s.lag_reading = none then LAG_PUTT
    else if s.putt_plan_2 = none then PLAN_CHOICES
    else []

/-- The non-putt field group holds at least one value. -/
def nonPuttPopulated (s : Shot) : Prop :=
  s.result ≠ none ∨ s.contact ≠ none ∨ s.plan ≠ none

/-- The putt field group holds at least one value. -/
def puttPopulated (s : Shot) : Prop :=
  s.putt_distance ≠ none ∨ s.putt_result ≠ none ∨ s.putt_contact ≠ none ∨
  s.putt_plan_1 ≠ none ∨ s.lag_reading ≠ none ∨ s.putt_plan_2 ≠ none

instance (s : Shot) : Decidable (nonPuttPopulated s) := by
  unfold nonPuttPopulated; infer_instance

instance (s : Shot) : Decidable (puttPopulated s) := by
  unfold puttPopulated; infer_instance

/-- The non-putt field group is entirely unset. -/
def nonPuttEmpty (s : Shot) : Prop :=
  s.result = none ∧ s.contact = none ∧ s.plan = none

/-- The putt field group is entirely unset. -/
def puttEmpty (s : Shot) : Prop :=
  s.putt_distance = none ∧ s.putt_result = none ∧ s.putt_contact = none ∧
  s.putt_plan_1 = none ∧ s.lag_reading = none ∧ s.putt_plan_2 = none

/-- Branch exclusivity of one Shot: before a type is chosen both groups
are unset; once the type is chosen, the other branch's group stays unset. -/
def branchOK (s : Shot) : Prop :=
  if s.shot_type = none then nonPuttEmpty s ∧ puttEmpty s
  else if s.shot_type = some "putt" then nonPuttEmpty s
  else puttEmpty s

instance (s : Shot) : Decidable (branchOK s) := by
  unfold branchOK nonPuttEmpty puttEmpty; infer_instance

/-- Branch exclusivity of a whole session: the in-progress Shot, every
undo snapshot, and every confirmed Shot. -/
def CoreOK (core : Core) : Prop :=
  (∀ s, core.current = some s → branchOK s) ∧
  (∀ s ∈ core.stack, branchOK s) ∧
  (∀ s ∈ core.shots, branchOK s)

/-! ### Concrete fixtures used by counterexamples and witnesses -/

/-- A freshly started on-course Shot (what `/shot` creates at hole 1). -/
def blankShot : Shot :=
  { timestamp := "t0", mode := some "oncourse", session_id := "sid", hole := some 1 }

/-- An on-course session holding `blankShot` as in-progress Shot. -/
def blankCore : Core :=
  { session_id := "sid", mode := some "oncourse", shots := [], current := some blankShot,
    stack := [], practice_lie := none, practice_club := none, hole := 1 }

/-- A completed non-putt practice Shot (at the Review state). -/
def reviewShot : Shot :=
  { timestamp := "t0", mode := some "practice", session_id := "sid",
    lie := some "tee", club := some "7", shot_type := some "full swing",
    result := some "⬆️", contact := some "thin", plan := some "shot as planned ⛳️" }

/-- A practice session parked at Review with `reviewShot` in progress. -/
def reviewCore : Core :=
  { session_id := "sid", mode := some "practice", shots := [], current := some reviewShot,
    stack := [], practice_lie := some "tee", practice_club := some "7", hole := 1 }

/-- An on-course Shot mid-entry (type and lie chosen). -/
def midShot : Shot :=
  { timestamp := "t0", mode := some "oncourse", session_id := "sid", hole := some 1,
    shot_type := some "full swing", lie := some "tee" }

/-- An on-course session with `midShot` in progress and a non-empty undo stack. -/
def midCore : Core :=
  { session_id := "sid", mode := some "oncourse", shots := [], current := some midShot,
    stack := [blankShot], practice_lie := none, practice_club := none, hole := 1 }

/-! ### Theorems -/

/-- C3: pushing a snapshot of the in-progress Shot onto the Undo Log
and then popping it restores the Shot to exactly the prior field-level
state (the popped snapshot replaces whatever mutation — `s1` — happened
after the push, including a field that went from unset to set), and the
stack is back to what it was. -/
theorem C3_push_pop_restores (core : Core) (s s1 : Shot)
    (h : core.current = some s) :
    (pop_state (set_current (push_state core) s1)).snd = true ∧
    (pop_state (set_current (push_state core) s1)).fst.current = some s ∧
    (pop_state (set_current (push_state core) s1)).fst.stack = core.stack := by
  simp [pop_state, set_current, push_state, h]

/-- Witness for C3: pushing `blankShot`, setting its `shot_type`, then
popping reverts the field to unset. -/
theorem C3_push_pop_restores_witness :
    blankCore.current = some blankShot ∧
    (pop_state (set_current (push_state blankCore) { blankShot with shot_type := some "putt" })).snd = true ∧
    (pop_state (set_current (push_state blankCore) { blankShot with shot_type := some "putt" })).fst.current = some blankShot ∧
    (pop_state (set_current (push_state blankCore) { blankShot with shot_type := some "putt" })).fst.stack = blankCore.stack :=
  ⟨rfl, C3_push_pop_restores blankCore blankShot { blankShot with shot_type := some "putt" } rfl⟩

/-- C4: a back token in the shot flow with an empty Undo Log leaves the
whole session state unchanged and replies "Nothing to go back to.". -/
theorem C4_back_on_empty_log (fresh ts : String) (core : Core) (s : Shot)
    (hc : core.current = some s) (hs : core.stack = []) :
    shot_flow fresh ts core BACK =
      (core, some (Msg.mk "Nothing to go back to." Kb.noKb)) := by
  simp [shot_flow, hc, shot_flow_body, handle_controls, BACK, MAIN_MENU, END_SESSION_BTN,
        pop_state, hs]

/-- Witness for C4 at a concrete session with an empty Undo Log. -/
theorem C4_back_on_empty_log_witness :
    blankCore.current = some blankShot ∧ blankCore.stack = [] ∧
    shot_flow "f" "t1" blankCore BACK =
      (blankCore, some (Msg.mk "Nothing to go back to." Kb.noKb)) :=
  ⟨rfl, rfl, C4_back_on_empty_log "f" "t1" blankCore blankShot rfl rfl⟩

/-- C9: ending a session installs the freshly drawn session identifier,
clears the confirmed list, the in-progress Shot and the Undo Log, keeps
the mode, and clears the sticky lie/club exactly when the mode is
practice. -/
theorem C9_end_session_reset (fresh : String) (core : Core) :
    (end_session_action fresh core).fst.session_id = fresh ∧
    (end_session_action fresh core).fst.shots = [] ∧
    (end_session_action fresh core).fst.current = none ∧
    (end_session_action fresh core).fst.stack = [] ∧
    (end_session_action fresh core).fst.mode = core.mode ∧
    (end_session_action fresh core).fst.practice_lie =
      (if core.mode = some "practice" then none else core.practice_lie) ∧
    (end_session_action fresh core).fst.practice_club =
      (if core.mode = some "practice" then none else core.practice_club) := by
  unfold end_session_action
  split_ifs <;> simp_all

/-- C10: for an on-course session, ending the session also resets the
hole counter to 1, so the next `/shot` after end-session creates its
Shot at hole 1. -/
theorem C10_end_session_resets_hole (fresh ts : String) (core : Core)
    (h : core.mode = some "oncourse") :
    (end_session_action fresh core).fst.hole = 1 ∧
    ((cmd_shot ts (end_session_action fresh core).fst).fst.current).map Shot.hole =
      some (some 1) := by
  unfold end_session_action at *
  simp [h, cmd_shot, start_new_shot, new_shot]

/-- Witness for C10 on a concrete on-course session at hole 7. -/
theorem C10_end_session_resets_hole_witness :
    ({ blankCore with hole := 7 } : Core).mode = some "oncourse" ∧
    (end_session_action "f" { blankCore with hole := 7 }).fst.hole = 1 ∧
    ((cmd_shot "t1" (end_session_action "f" { blankCore with hole := 7 }).fst).fst.current).map Shot.hole =
      some (some 1) :=
  ⟨rfl, C10_end_session_resets_hole "f" "t1" { blankCore with hole := 7 } rfl⟩

/-- C8: the stats export is a function of the confirmed-shot list alone:
two sessions with the same list (and any other state whatsoever) produce
the same rows, hence repeated invocation on an unchanged list is
idempotent. -/
theorem C8_stats_pure (c1 c2 : Core) (h : c1.shots = c2.shots) :
    cmd_stats_rows c1 = cmd_stats_rows c2 := by
  unfold cmd_stats_rows
  rw [h]

/-- Witness for C8: two sessions differing in mode, hole, stickies and
in-progress Shot but sharing the shot list. -/
theorem C8_stats_pure_witness :
    reviewCore.shots = midCore.shots ∧
    cmd_stats_rows reviewCore = cmd_stats_rows midCore :=
  ⟨rfl, C8_stats_pure reviewCore midCore rfl⟩

/-- C6 counterexample: with an in-progress on-course Shot and a non-empty
Undo Log, `/shot` does NOT reject: it replaces the in-progress Shot with
a fresh one, clears the Undo Log, and prompts for the new shot's type —
the partially filled Shot is discarded. -/
theorem C6_cmd_shot_not_rejected :
    (cmd_shot "t9" midCore).fst.current ≠ midCore.current ∧
    (cmd_shot "t9" midCore).fst.current = some (new_shot "t9" midCore) ∧
    (cmd_shot "t9" midCore).fst.stack = [] ∧ midCore.stack ≠ [] ∧
    (cmd_shot "t9" midCore).snd = Msg.mk "Hole 1: choose Type" Kb.type := by
  refine ⟨by decide, rfl, rfl, by decide, rfl⟩

/-- C6 (amended): `/shot` in on-course mode unconditionally starts a
fresh Shot — replacing any in-progress one and clearing its Undo Log —
and only a request outside on-course mode is rejected with a guidance
message that leaves the session unchanged. -/
theorem C6_cmd_shot_replaces (ts : String) (core : Core) :
    (core.mode = some "oncourse" → (cmd_shot ts core).fst = start_new_shot ts core) ∧
    (core.mode ≠ some "oncourse" →
      (cmd_shot ts core) =
        (core, Msg.mk "You are not in on-course mode. Use /start." Kb.noKb)) := by
  unfold cmd_shot
  split_ifs <;> simp_all

/-- Witness for the amended C6 on a concrete in-progress session. -/
theorem C6_cmd_shot_replaces_witness :
    (cmd_shot "t9" midCore).fst = start_new_shot "t9" midCore :=
  (C6_cmd_shot_replaces "t9" midCore).1 rfl

/-- C1 (code evaluated at the failing input): a Confirm token sent
right after `/shot` — long before Review — is not rejected: the blank,
branch-incomplete Shot is appended to the session's confirmed list and
the bot replies "Saved". -/
theorem C1_confirm_unguarded :
    (shot_flow "f" "t1" blankCore CONFIRM).fst.shots = [blankShot] ∧
    branchComplete blankShot = false ∧
    (shot_flow "f" "t1" blankCore CONFIRM).snd =
      some (Msg.mk "Saved ✅\nAdd next: /shot" Kb.removeKeyboard) := by
  refine ⟨rfl, rfl, rfl⟩

set_option maxHeartbeats 1600000 in
/-- Helper: on a token outside the current step's Choice Catalog set,
the progression leaves the session untouched and re-asks the current
step — except at Review (branch complete), where the source falls off
the end of the function and sends nothing. -/
theorem progress_invalid (core : Core) (s : Shot) (text : String)
    (hm : text ∉ stepChoices s) :
    progress core s text =
      (core, if branchComplete s then none else some (reask_step s)) := by
  unfold stepChoices at hm
  unfold progress branchComplete reask_step
  by_cases h0 : s.shot_type = none
  · simp only [if_pos h0] at hm ⊢
    simp [hm]
  · by_cases hp : s.shot_type = some "putt"
    · -- putt branch
      simp only [if_neg h0, if_neg (not_not_intro hp)] at hm ⊢
      by_cases h1 : s.putt_distance = none
      · simp only [if_pos h1] at hm ⊢; simp [hm, h1]
      · simp only [if_neg h1] at hm ⊢
        by_cases h2 : s.lie = none
        · simp only [if_pos h2] at hm ⊢; simp [hm, h2]
        · simp only [if_neg h2] at hm ⊢
          by_cases h3 : s.club = none
          · simp only [if_pos h3] at hm ⊢; simp [hm, h3]
          · simp only [if_neg h3] at hm ⊢
            by_cases h4 : s.putt_result = none
            · simp only [if_pos h4] at hm ⊢; simp [hm, h4]
            · simp only [if_neg h4] at hm ⊢
              by_cases h5 : s.putt_contact = none
              · simp only [if_pos h5] at hm ⊢; simp [hm, h5]
              · simp only [if_neg h5] at hm ⊢
                by_cases h6 : s.putt_plan_1 = none
                · simp only [if_pos h6] at hm ⊢; simp [hm, h6]
                · simp only [if_neg h6] at hm ⊢
                  by_cases h7 : s.lag_reading = none
                  · simp only [if_pos h7] at hm ⊢; simp [hm, h7]
                  · simp only [if_neg h7] at hm ⊢
                    by_cases h8 : s.putt_plan_2 = none
                    · simp only [if_pos h8] at hm ⊢; simp [hm, h8]
                    · simp only [if_neg h8] at hm ⊢
                      simp [Option.isSome_iff_ne_none, h1, h2, h3, h4, h5, h6, h7, h8]
    · -- non-putt branch
      simp only [if_neg h0, if_pos hp] at hm ⊢
      by_cases h1 : s.lie = none
      · simp only [if_pos h1] at hm ⊢; simp [hm, h1]
      · simp only [if_neg h1] at hm ⊢
        by_cases h2 : s.club = none
        · simp only [if_pos h2] at hm ⊢; simp [hm, h2]
        · simp only [if_neg h2] at hm ⊢
          by_cases h3 : s.result = none
          · simp only [if_pos h3] at hm ⊢; simp [hm, h3]
          · simp only [if_neg h3] at hm ⊢
            by_cases h4 : s.contact = none
            · simp only [if_pos h4] at hm ⊢; simp [hm, h4]
            · simp only [if_neg h4] at hm ⊢
              by_cases h5 : s.plan = none
              · simp only [if_pos h5] at hm ⊢; simp [hm, h5]
              · simp only [if_neg h5] at hm ⊢
                simp [Option.isSome_iff_ne_none, h1, h2, h3, h4, h5]

/-- C2 counterexample: at the Review state (all branch fields set) an
arbitrary non-control token produces NO reply at all — the sequencer
does not re-emit the Review prompt (the session state is untouched,
but the claimed re-prompt does not happen). -/
theorem C2_review_state_silent :
    (shot_flow "f" "t1" reviewCore "hello").snd = none ∧
    (shot_flow "f" "t1" reviewCore "hello").snd ≠ some (reask_step reviewShot) ∧
    (shot_flow "f" "t1" reviewCore "hello").fst = reviewCore := by
  refine ⟨rfl, by decide, rfl⟩

/-- C2 (amended): a token that is neither a control token nor a member
of the current step's Choice Catalog set never mutates the in-progress
Shot or the Undo Log; at every pre-Review step the same prompt is
re-emitted, while at Review the sequencer sends no reply at all. -/
theorem C2_invalid_token_no_mutation (fresh ts : String) (core : Core) (s : Shot)
    (text : String) (hc : core.current = some s)
    (h1 : text ≠ MAIN_MENU) (h2 : text ≠ END_SESSION_BTN)
    (h3 : text ≠ BACK) (h4 : text ≠ CANCEL) (h5 : text ≠ CONFIRM)
    (hm : text ∉ stepChoices s) :
    shot_flow fresh ts core text =
      (core, if branchComplete s then none else some (reask_step s)) := by
  obtain ⟨sid, md, sh, cur, st, pl, pc, hl⟩ := core
  change cur = some s at hc
  subst hc
  have hctl : handle_controls fresh ⟨sid, md, sh, some s, st, pl, pc, hl⟩ text = none := by
    unfold handle_controls
    rw [if_neg h1, if_neg h2]
  show shot_flow_body fresh ts ⟨sid, md, sh, some s, st, pl, pc, hl⟩ s text = _
  unfold shot_flow_body
  rw [hctl]
  simp only [if_neg h3, if_neg h4, if_neg h5]
  exact progress_invalid _ s text hm

/-- Witness for the amended C2: free text at the Result step re-asks
for the result and changes nothing. -/
theorem C2_invalid_token_no_mutation_witness :
    midCore.current = some midShot ∧
    "hello" ∉ stepChoices midShot ∧
    shot_flow "f" "t1" midCore "hello" =
      (midCore, if branchComplete midShot then none else some (reask_step midShot)) :=
  ⟨rfl, by decide,
   C2_invalid_token_no_mutation "f" "t1" midCore midShot "hello" rfl
     (by decide) (by decide) (by decide) (by decide) (by decide) (by decide)⟩

/-- The merged result-direction key list, evaluated. -/
theorem result_keys_eq : result_keys = ["⬆️", "⬇️", "➡️", "⬅️", "⛳️"] := by decide

/-- The merged contact-quality key list, evaluated. -/
theorem contact_keys_eq : contact_keys =
    ["thin", "fat", "toe", "heel", "shank", "high on face", "low on face", "good ⛳️"] := by
  decide

theorem plan_keys_eq : plan_keys = ["shot as planned ⛳️", "not as planned ❌"] := by decide

theorem lag_keys_eq : lag_keys = ["good reading", "poor reading"] := by decide

/-- C7: in the stats table, the row of the club at position `j` is
`rowFor`, and in that row the percentage column of the `i`-th key of
each category equals `round(100 × count / N, 1)` (banker's rounding)
where `count` is the number of observations of that key in the club's
group and `N` the group size; `pct` is `0` whenever `N = 0`. -/
theorem C7_percentages (shots : List Shot) (j i : ℕ) (c k : String)
    (hc : (clubOrder shots)[j]? = some c) :
    (compute_stats_by_club shots)[j+1]? = some (rowFor shots c) ∧
    (result_keys[i]? = some k →
      (rowFor shots c)[2 + i]? =
        some (Cell.q (pct (((clubGroup shots c).flatMap resObsOfShot).count k)
          (clubGroup shots c).length))) ∧
    (contact_keys[i]? = some k →
      (rowFor shots c)[2 + result_keys.length + i]? =
        some (Cell.q (pct (((clubGroup shots c).flatMap conObsOfShot).count k)
          (clubGroup shots c).length))) ∧
    (plan_keys[i]? = some k →
      (rowFor shots c)[2 + result_keys.length + contact_keys.length + i]? =
        some (Cell.q (pct (((clubGroup shots c).flatMap planObsOfShot).count k)
          (clubGroup shots c).length))) ∧
    (lag_keys[i]? = some k →
      (rowFor shots c)[2 + result_keys.length + contact_keys.length + plan_keys.length + i]? =
        some (Cell.q (pct (((clubGroup shots c).flatMap lagObsOfShot).count k)
          (clubGroup shots c).length))) ∧
    (∀ a : ℕ, pct a 0 = 0) := by
  refine ⟨?_, ?_, ?_, ?_, ?_, ?_⟩
  · simp [compute_stats_by_club, hc]
  · intro hk
    rw [result_keys_eq] at hk
    have hi : i < 5 := by
      by_contra hbad
      rw [List.getElem?_eq_none (by simp; omega)] at hk
      exact Option.noConfusion hk
    interval_cases i <;> simp_all [rowFor, result_keys_eq]
  · intro hk
    rw [contact_keys_eq] at hk
    have hi : i < 8 := by
      by_contra hbad
      rw [List.getElem?_eq_none (by simp; omega)] at hk
      exact Option.noConfusion hk
    rw [result_keys_eq]
    interval_cases i <;> simp_all [rowFor, result_keys_eq, contact_keys_eq]
  · intro hk
    rw [plan_keys_eq] at hk
    have hi : i < 2 := by
      by_contra hbad
      rw [List.getElem?_eq_none (by simp; omega)] at hk
      exact Option.noConfusion hk
    rw [result_keys_eq, contact_keys_eq]
    interval_cases i <;>
      simp_all [rowFor, result_keys_eq, contact_keys_eq, plan_keys_eq]
  · intro hk
    rw [lag_keys_eq] at hk
    have hi : i < 2 := by
      by_contra hbad
      rw [List.getElem?_eq_none (by simp; omega)] at hk
      exact Option.noConfusion hk
    rw [result_keys_eq, contact_keys_eq, plan_keys_eq]
    interval_cases i <;>
      simp_all [rowFor, result_keys_eq, contact_keys_eq, plan_keys_eq, lag_keys_eq]
  · intro a
    simp [pct]

/-- Witness for C7: a single confirmed shot with club "7" and result ⬆️
gives the "Result % ⬆️" column of club "7"'s row the value
`pct 1 1 = 100`. -/
theorem C7_percentages_witness :
    (rowFor [reviewShot] "7")[2 + 0]? =
      some (Cell.q (pct (((clubGroup [reviewShot] "7").flatMap resObsOfShot).count "⬆️")
        (clubGroup [reviewShot] "7").length)) ∧
    pct (((clubGroup [reviewShot] "7").flatMap resObsOfShot).count "⬆️")
        (clubGroup [reviewShot] "7").length = 100 :=
  ⟨(C7_percentages [reviewShot] 0 0 "7" "⬆️" rfl).2.1 rfl, by
    have h1 : (((clubGroup [reviewShot] "7").flatMap resObsOfShot).count "⬆️") = 1 := by decide
    have h2 : (clubGroup [reviewShot] "7").length = 1 := by decide
    rw [h1, h2]
    norm_num [pct, roundHalfEven]⟩

/-! ### C5: branch exclusivity is an invariant of every reachable session -/

theorem branchOK_new_shot (ts : String) (core : Core) : branchOK (new_shot ts core) := by
  unfold new_shot branchOK nonPuttEmpty puttEmpty
  split_ifs <;> simp_all

theorem coreOK_init (sid : String) : CoreOK (initCore sid) := by
  refine ⟨?_, ?_, ?_⟩ <;> simp [initCore]

theorem coreOK_main_menu (core : Core) : CoreOK (go_main_menu core).fst := by
  refine ⟨?_, ?_, ?_⟩ <;> simp [go_main_menu]

theorem coreOK_end_session (fresh : String) (core : Core) :
    CoreOK (end_session_action fresh core).fst := by
  unfold end_session_action
  split_ifs <;> (refine ⟨?_, ?_, ?_⟩ <;> simp)

theorem coreOK_controls {fresh : String} {core : Core} {text : String} {r : Core × Msg}
    (h : handle_controls fresh core text = some r) : CoreOK r.fst := by
  unfold handle_controls at h
  split_ifs at h
  · rw [Option.some_inj] at h
    rw [← h]
    exact coreOK_main_menu core
  · rw [Option.some_inj] at h
    rw [← h]
    exact coreOK_end_session fresh core

theorem coreOK_start {ts : String} {core : Core} (h : CoreOK core) :
    CoreOK (start_new_shot ts core) := by
  obtain ⟨h1, h2, h3⟩ := h
  refine ⟨?_, ?_, ?_⟩
  · intro s hs
    simp [start_new_shot] at hs
    rw [← hs]
    exact branchOK_new_shot ts core
  · simp [start_new_shot]
  · simpa [start_new_shot] using h3

/-- One accepted mutation: snapshot pushed, current replaced by `s1`. -/
theorem coreOK_accept {core : Core} {s s1 : Shot}
    (hcur : core.current = some s) (hok : CoreOK core) (h1 : branchOK s1) :
    CoreOK (set_current (push_state core) s1) := by
  obtain ⟨hc, hst, hsh⟩ := hok
  have hpush : push_state core = { core with stack := s :: core.stack } := by
    unfold push_state; rw [hcur]
  rw [hpush]
  refine ⟨?_, ?_, ?_⟩
  · intro s' hs'
    simp [set_current] at hs'
    rw [← hs']; exact h1
  · intro s' hs'
    simp [set_current] at hs'
    rcases hs' with h | hmem
    · rw [h]; exact hc _ hcur
    · exact hst s' hmem
  · intro s' hs'
    simp [set_current] at hs'
    exact hsh s' hs'

theorem branchOK_set_lie {s : Shot} (hok : branchOK s) (v : Option String) :
    branchOK { s with lie := v } := by
  obtain ⟨tm, md, sid, ho, li, cl, st, re, co, pl, pd, pr, pc, p1, lr, p2⟩ := s
  exact hok

theorem branchOK_set_club {s : Shot} (hok : branchOK s) (v : Option String) :
    branchOK { s with club := v } := by
  obtain ⟨tm, md, sid, ho, li, cl, st, re, co, pl, pd, pr, pc, p1, lr, p2⟩ := s
  exact hok

theorem branchOK_set_type {s : Shot} (h0 : s.shot_type = none) (hok : branchOK s)
    (t : String) : branchOK { s with shot_type := some t } := by
  obtain ⟨tm, md, sid, ho, li, cl, st, re, co, pl, pd, pr, pc, p1, lr, p2⟩ := s
  change st = none at h0
  subst h0
  unfold branchOK nonPuttEmpty puttEmpty at *
  split_ifs <;> simp_all

theorem branchOK_set_result {s : Shot} (h0 : ¬ s.shot_type = none)
    (hp : ¬ s.shot_type = some "putt") (hok : branchOK s) (v : String) :
    branchOK { s with result := some v } := by
  obtain ⟨tm, md, sid, ho, li, cl, st, re, co, pl, pd, pr, pc, p1, lr, p2⟩ := s
  unfold branchOK nonPuttEmpty puttEmpty at *
  simp_all

theorem branchOK_set_contact {s : Shot} (h0 : ¬ s.shot_type = none)
    (hp : ¬ s.shot_type = some "putt") (hok : branchOK s) (v : String) :
    branchOK { s with contact := some v } := by
  obtain ⟨tm, md, sid, ho, li, cl, st, re, co, pl, pd, pr, pc, p1, lr, p2⟩ := s
  unfold branchOK nonPuttEmpty puttEmpty at *
  simp_all

theorem branchOK_set_plan {s : Shot} (h0 : ¬ s.shot_type = none)
    (hp : ¬ s.shot_type = some "putt") (hok : branchOK s) (v : String) :
    branchOK { s with plan := some v } := by
  obtain ⟨tm, md, sid, ho, li, cl, st, re, co, pl, pd, pr, pc, p1, lr, p2⟩ := s
  unfold branchOK nonPuttEmpty puttEmpty at *
  simp_all

theorem branchOK_set_pd {s : Shot} (hp : s.shot_type = some "putt")
    (hok : branchOK s) (v : String) : branchOK { s with putt_distance := some v } := by
  obtain ⟨tm, md, sid, ho, li, cl, st, re, co, pl, pd, pr, pc, p1, lr, p2⟩ := s
  unfold branchOK nonPuttEmpty puttEmpty at *
  simp_all

theorem branchOK_set_pr {s : Shot} (hp : s.shot_type = some "putt")
    (hok : branchOK s) (v : String) : branchOK { s with putt_result := some v } := by
  obtain ⟨tm, md, sid, ho, li, cl, st, re, co, pl, pd, pr, pc, p1, lr, p2⟩ := s
  unfold branchOK nonPuttEmpty puttEmpty at *
  simp_all

theorem branchOK_set_pc {s : Shot} (hp : s.shot_type = some "putt")
    (hok : branchOK s) (v : String) : branchOK { s with putt_contact := some v } := by
  obtain ⟨tm, md, sid, ho, li, cl, st, re, co, pl, pd, pr, pc, p1, lr, p2⟩ := s
  unfold branchOK nonPuttEmpty puttEmpty at *
  simp_all

theorem branchOK_set_pp1 {s : Shot} (hp : s.shot_type = some "putt")
    (hok : branchOK s) (v : String) : branchOK { s with putt_plan_1 := some v } := by
  obtain ⟨tm, md, sid, ho, li, cl, st, re, co, pl, pd, pr, pc, p1, lr, p2⟩ := s
  unfold branchOK nonPuttEmpty puttEmpty at *
  simp_all

theorem branchOK_set_lr {s : Shot} (hp : s.shot_type = some "putt")
    (hok : branchOK s) (v : String) : branchOK { s with lag_reading := some v } := by
  obtain ⟨tm, md, sid, ho, li, cl, st, re, co, pl, pd, pr, pc, p1, lr, p2⟩ := s
  unfold branchOK nonPuttEmpty puttEmpty at *
  simp_all

theorem branchOK_set_pp2 {s : Shot} (hp : s.shot_type = some "putt")
    (hok : branchOK s) (v : String) : branchOK { s with putt_plan_2 := some v } := by
  obtain ⟨tm, md, sid, ho, li, cl, st, re, co, pl, pd, pr, pc, p1, lr, p2⟩ := s
  unfold branchOK nonPuttEmpty puttEmpty at *
  simp_all

set_option maxHeartbeats 1600000 in
/-- The progression preserves branch exclusivity. -/
theorem coreOK_progress {core : Core} {s : Shot} {text : String}
    (hcur : core.current = some s) (hok : CoreOK core) :
    CoreOK (progress core s text).fst := by
  have hbs : branchOK s := hok.1 s hcur
  unfold progress
  by_cases h0 : s.shot_type = none
  · simp only [if_pos h0]
    by_cases hm : text ∈ SHOT_TYPES
    · simp only [if_pos hm]
      split_ifs <;> exact coreOK_accept hcur hok (branchOK_set_type h0 hbs text)
    · simp only [if_neg hm]; exact hok
  · by_cases hp : s.shot_type = some "putt"
    · simp only [if_neg h0, if_neg (not_not_intro hp)]
      by_cases h1 : s.putt_distance = none
      · simp only [if_pos h1]
        by_cases hm : text ∈ PUTT_DISTANCE
        · simp only [if_pos hm]
          split_ifs <;> exact coreOK_accept hcur hok (branchOK_set_pd hp hbs text)
        · simp only [if_neg hm]; exact hok
      · simp only [if_neg h1]
        by_cases h2 : s.lie = none
        · simp only [if_pos h2]
          by_cases hm : text ∈ LIES
          · simp only [if_pos hm]
            exact coreOK_accept hcur hok (branchOK_set_lie hbs (some text))
          · simp only [if_neg hm]; exact hok
        · simp only [if_neg h2]
          by_cases h3 : s.club = none
          · simp only [if_pos h3]
            by_cases hm : text ∈ CLUBS
            · simp only [if_pos hm]
              exact coreOK_accept hcur hok (branchOK_set_club hbs (some text))
            · simp only [if_neg hm]; exact hok
          · simp only [if_neg h3]
            by_cases h4 : s.putt_result = none
            · simp only [if_pos h4]
              by_cases hm : text ∈ RESULT_PUTT
              · simp only [if_pos hm]
                exact coreOK_accept hcur hok (branchOK_set_pr hp hbs text)
              · simp only [if_neg hm]; exact hok
            · simp only [if_neg h4]
              by_cases h5 : s.putt_contact = none
              · simp only [if_pos h5]
                by_cases hm : text ∈ CONTACT_PUTT
                · simp only [if_pos hm]
                  exact coreOK_accept hcur hok (branchOK_set_pc hp hbs text)
                · simp only [if_neg hm]; exact hok
              · simp only [if_neg h5]
                by_cases h6 : s.putt_plan_1 = none
                · simp only [if_pos h6]
                  by_cases hm : text ∈ PLAN_CHOICES
                  · simp only [if_pos hm]
                    exact coreOK_accept hcur hok (branchOK_set_pp1 hp hbs text)
                  · simp only [if_neg hm]; exact hok
                · simp only [if_neg h6]
                  by_cases h7 : s.lag_reading = none
                  · simp only [if_pos h7]
                    by_cases hm : text ∈ LAG_PUTT
                    · simp only [if_pos hm]
                      exact coreOK_accept hcur hok (branchOK_set_lr hp hbs text)
                    · simp only [if_neg hm]; exact hok
                  · simp only [if_neg h7]
                    by_cases h8 : s.putt_plan_2 = none
                    · simp only [if_pos h8]
                      by_cases hm : text ∈ PLAN_CHOICES
                      · simp only [if_pos hm]
                        exact coreOK_accept hcur hok (branchOK_set_pp2 hp hbs text)
                      · simp only [if_neg hm]; exact hok
                    · simp only [if_neg h8]; exact hok
    · simp only [if_neg h0, if_pos hp]
      by_cases h1 : s.lie = none
      · simp only [if_pos h1]
        by_cases hm : text ∈ LIES
        · simp only [if_pos hm]
          exact coreOK_accept hcur hok (branchOK_set_lie hbs (some text))
        · simp only [if_neg hm]; exact hok
      · simp only [if_neg h1]
        by_cases h2 : s.club = none
        · simp only [if_pos h2]
          by_cases hm : text ∈ CLUBS
          · simp only [if_pos hm]
            exact coreOK_accept hcur hok (branchOK_set_club hbs (some text))
          · simp only [if_neg hm]; exact hok
        · simp only [if_neg h2]
          by_cases h3 : s.result = none
          · simp only [if_pos h3]
            by_cases hm : text ∈ RESULT_NON_PUTT
            · simp only [if_pos hm]
              exact coreOK_accept hcur hok (branchOK_set_result h0 hp hbs text)
            · simp only [if_neg hm]; exact hok
          · simp only [if_neg h3]
            by_cases h4 : s.contact = none
            · simp only [if_pos h4]
              by_cases hm : text ∈ CONTACT_NON_PUTT
              · simp only [if_pos hm]
                exact coreOK_accept hcur hok (branchOK_set_contact h0 hp hbs text)
              · simp only [if_neg hm]; exact hok
            · simp only [if_neg h4]
              by_cases h5 : s.plan = none
              · simp only [if_pos h5]
                by_cases hm : text ∈ PLAN_CHOICES
                · simp only [if_pos hm]
                  exact coreOK_accept hcur hok (branchOK_set_plan h0 hp hbs text)
                · simp only [if_neg hm]; exact hok
              · simp only [if_neg h5]; exact hok

/-- Changing fields other than `current` / `stack` / `shots` keeps `CoreOK`. -/
theorem coreOK_same {c1 c2 : Core} (hok : CoreOK c1) (h1 : c2.current = c1.current)
    (h2 : c2.stack = c1.stack) (h3 : c2.shots = c1.shots) : CoreOK c2 := by
  obtain ⟨a, b, c⟩ := hok
  refine ⟨?_, ?_, ?_⟩
  · intro s hs; exact a s (h1 ▸ hs)
  · intro s hs; exact b s (h2 ▸ hs)
  · intro s hs; exact c s (h3 ▸ hs)

/-- A session with no current Shot, no snapshots and no confirmed shots. -/
theorem coreOK_cleared {c : Core} (h1 : c.current = none) (h2 : c.stack = [])
    (h3 : c.shots = []) : CoreOK c := by
  refine ⟨?_, ?_, ?_⟩ <;> simp_all

/-- `shot_flow_body` preserves branch exclusivity. -/
theorem coreOK_body {fresh ts : String} {core : Core} {s : Shot} {text : String}
    (hcur : core.current = some s) (hok : CoreOK core) :
    CoreOK (shot_flow_body fresh ts core s text).fst := by
  unfold shot_flow_body
  cases hh : handle_controls fresh core text with
  | some r => exact coreOK_controls hh
  | none =>
    by_cases hb : text = BACK
    · simp only [if_pos hb]
      cases hst : core.stack with
      | nil =>
        have hpop : pop_state core = (core, false) := by unfold pop_state; rw [hst]
        simp only [hpop]
        exact hok
      | cons p rest =>
        have hpop : pop_state core =
            ({ core with current := some p, stack := rest }, true) := by
          unfold pop_state; rw [hst]
        simp only [hpop]
        refine ⟨?_, ?_, ?_⟩
        · intro s' hs'
          simp at hs'
          rw [← hs']
          exact hok.2.1 p (by rw [hst]; exact List.mem_cons_self p rest)
        · intro s' hs'
          simp at hs'
          exact hok.2.1 s' (by rw [hst]; exact List.mem_cons_of_mem p hs')
        · intro s' hs'
          exact hok.2.2 s' hs'
    · simp only [if_neg hb]
      by_cases hca : text = CANCEL
      · simp only [if_pos hca]
        split_ifs <;>
          (refine ⟨by simp, by simp, ?_⟩
           intro s' hs'
           exact hok.2.2 s' hs')
      · simp only [if_neg hca]
        by_cases hcf : text = CONFIRM
        · simp only [if_pos hcf]
          have hok2 :
              CoreOK { core with shots := core.shots ++ [s], current := none, stack := [] } := by
            refine ⟨by simp, by simp, ?_⟩
            intro s' hs'
            simp at hs'
            rcases hs' with hmem | he
            · exact hok.2.2 s' hmem
            · rw [he]; exact hok.1 s hcur
          split_ifs
          · exact coreOK_start hok2
          · exact hok2
        · simp only [if_neg hcf]
          exact coreOK_progress hcur hok

/-- `shot_flow` preserves branch exclusivity. -/
theorem coreOK_shot_flow {fresh ts : String} {core : Core} {text : String}
    (hok : CoreOK core) : CoreOK (shot_flow fresh ts core text).fst := by
  unfold shot_flow
  cases hcur : core.current with
  | some s => exact coreOK_body hcur hok
  | none =>
    split_ifs
    · exact coreOK_body (by simp [start_new_shot]) (coreOK_start hok)
    · exact hok
    · exact hok
    · exact hok

/-- `handle_mode` preserves branch exclusivity. -/
theorem coreOK_handle_mode {fresh : String} {core : Core} {text : String}
    (hok : CoreOK core) : CoreOK (handle_mode fresh core text).fst := by
  unfold handle_mode
  dsimp only
  split_ifs <;> first | exact hok | exact coreOK_cleared rfl rfl rfl

/-- `handle_practice_setup` preserves branch exclusivity. -/
theorem coreOK_practice {fresh ts : String} {core : Core} {text : String}
    (hok : CoreOK core) : CoreOK (handle_practice_setup fresh ts core text).fst := by
  unfold handle_practice_setup
  by_cases hmode : core.mode ≠ some "practice"
  · simp only [if_pos hmode]; exact hok
  · simp only [if_neg hmode]
    cases hh : handle_controls fresh core text with
    | some r => exact coreOK_controls hh
    | none =>
      by_cases h1 : core.practice_lie = none
      · simp only [if_pos h1]
        by_cases hb : text = BACK
        · simp only [if_pos hb]; exact hok
        · simp only [if_neg hb]
          by_cases hm : text ∈ LIES
          · simp only [if_pos hm]
            exact coreOK_same hok rfl rfl rfl
          · simp only [if_neg hm]; exact hok
      · simp only [if_neg h1]
        by_cases h2 : core.practice_club = none
        · simp only [if_pos h2]
          by_cases hb : text = BACK
          · simp only [if_pos hb]; exact coreOK_same hok rfl rfl rfl
          · simp only [if_neg hb]
            by_cases hm : text ∈ CLUBS
            · simp only [if_pos hm]
              exact coreOK_start (coreOK_same hok rfl rfl rfl)
            · simp only [if_neg hm]; exact hok
        · simp only [if_neg h2]
          exact coreOK_shot_flow hok

/-- `any_text` preserves branch exclusivity. -/
theorem coreOK_any_text {fresh ts : String} {core : Core} {text : String}
    (hok : CoreOK core) : CoreOK (any_text fresh ts core text).fst := by
  unfold any_text
  cases hh : handle_controls fresh core text with
  | some r => exact coreOK_controls hh
  | none =>
    split_ifs <;>
      first
        | exact coreOK_handle_mode hok
        | exact coreOK_practice hok
        | exact coreOK_shot_flow hok
        | exact hok

/-- `cmd_shot` preserves branch exclusivity. -/
theorem coreOK_cmd_shot {ts : String} {core : Core} (hok : CoreOK core) :
    CoreOK (cmd_shot ts core).fst := by
  unfold cmd_shot
  split_ifs
  · exact hok
  · exact coreOK_start hok

/-- `cmd_next_hole` preserves branch exclusivity. -/
theorem coreOK_cmd_next_hole {core : Core} (hok : CoreOK core) :
    CoreOK (cmd_next_hole core).fst := by
  unfold cmd_next_hole
  split_ifs
  · exact hok
  · exact coreOK_same hok rfl rfl rfl

/-- Every event preserves branch exclusivity. -/
theorem coreOK_step (fresh ts : String) {core : Core} (ev : Ev) (hok : CoreOK core) :
    CoreOK (step fresh ts core ev) := by
  cases ev with
  | msg text => exact coreOK_any_text hok
  | shot => exact coreOK_cmd_shot hok
  | next_hole => exact coreOK_cmd_next_hole hok
  | end_session => exact coreOK_end_session fresh core
  | start => exact hok
  | stats => exact hok
  | help => exact hok

/-- Branch exclusivity holds in every reachable session state. -/
theorem reachable_coreOK {core : Core} (h : Reachable core) : CoreOK core := by
  induction h with
  | init sid => exact coreOK_init sid
  | next fresh ts ev hr ih => exact coreOK_step fresh ts ev ih

/-- C5: in every reachable session, no in-progress or confirmed Shot
ever has both the non-putt field group (result, contact, plan) and the
putt field group populated; once the shot type is chosen only that
branch's group is ever set (undo included — the invariant also holds
for every snapshot in the Undo Log, so popping preserves it). -/
theorem C5_branch_exclusivity (core : Core) (hr : Reachable core) (s : Shot)
    (h : core.current = some s ∨ s ∈ core.shots) :
    ¬ (nonPuttPopulated s ∧ puttPopulated s) := by
  have hok := reachable_coreOK hr
  have hbs : branchOK s := by
    rcases h with h | h
    · exact hok.1 s h
    · exact hok.2.2 s h
  rintro ⟨hnp, hpp⟩
  unfold branchOK nonPuttEmpty puttEmpty at hbs
  unfold nonPuttPopulated at hnp
  unfold puttPopulated at hpp
  split_ifs at hbs <;> tauto

/-- The session after choosing on-course mode and starting one shot. -/
def c5Core : Core :=
  step "f2" "t2" (step "f1" "t1" (initCore "sid") (Ev.msg "on course")) Ev.shot

/-- The in-progress Shot of `c5Core`. -/
def c5Shot : Shot :=
  { timestamp := "t2", mode := some "oncourse", session_id := "f1", hole := some 1 }

/-- Witness for C5 on a concrete reachable session. -/
theorem C5_branch_exclusivity_witness :
    ¬ (nonPuttPopulated c5Shot ∧ puttPopulated c5Shot) :=
  C5_branch_exclusivity c5Core
    (Reachable.next "f2" "t2" Ev.shot
      (Reachable.next "f1" "t1" (Ev.msg "on course") (Reachable.init "sid")))
    c5Shot (Or.inl (by decide))

end GolfBot
